import Mathlib

/-!
Shallow embedding of the order API of the HROne backend task
(src/app/api/orders.py, src/app/models.py), together with proofs of the
behavioural claims about order creation and the order-listing
aggregation pipeline.

Modelling conventions:
* MongoDB ObjectId values are modelled as natural numbers; the string
  form accepted by the bson ObjectId constructor is a 24-character hex
  string, parsed by `parseObjectId`.
* MongoDB collections are finite lists of documents; the aggregation
  pipeline of `get_user_orders` (match, unwind, lookup, unwind, group,
  sort, skip, limit) is embedded stage by stage.
* Prices and totals are modelled as rationals (the Python code uses
  floats; no claim here depends on rounding behaviour).
* Python `str.strip()` is modelled by `pyStrip`, which removes leading
  and trailing whitespace characters.
-/

/-- Whitespace removal from both ends of a character list, modelling
Python `str.strip()`. -/
def stripChars (l : List Char) : List Char :=
  (((l.dropWhile Char.isWhitespace).reverse).dropWhile Char.isWhitespace).reverse

/-- Python `str.strip()` on strings. -/
def pyStrip (s : String) : String := String.mk (stripChars s.data)

/-- A document of the `products` collection (fields used by the order
pipeline: `_id`, `name`, `price`). -/
structure Product where
  id : Nat
  name : String
  price : ℚ
deriving Repr, DecidableEq

/-- One entry of an order document's `items` array: a product reference
and a quantity. -/
structure OrderItem where
  productId : Nat
  qty : Int
deriving Repr, DecidableEq

/-- A document of the `orders` collection, as written by `create_order`:
`_id`, `userId` (stored exactly as supplied), `items`. -/
structure StoredOrder where
  id : Nat
  userId : String
  items : List OrderItem
deriving Repr, DecidableEq

/-- The database state: the two collections used by the orders API. -/
structure Store where
  products : List Product
  orders : List StoredOrder
deriving Repr, DecidableEq

/-- Errors raised by the handlers: HTTP 400 responses. `validation`
covers the malformed-input checks, `referential` the
products-do-not-exist check of `create_order`. -/
inductive ApiError where
  | validation (msg : String)
  | referential (msg : String)
deriving Repr, DecidableEq

/-- Is `c` an ASCII hexadecimal digit? -/
def isHexDigitChar (c : Char) : Bool :=
  c.isDigit || (decide ('a' ≤ c) && decide (c ≤ 'f')) || (decide ('A' ≤ c) && decide (c ≤ 'F'))

/-- Numeric value of a hexadecimal digit. -/
def hexDigitVal (c : Char) : Nat :=
  if c.isDigit then c.toNat - '0'.toNat
  else if decide ('a' ≤ c) && decide (c ≤ 'f') then c.toNat - 'a'.toNat + 10
  else c.toNat - 'A'.toNat + 10

/-- The bson `ObjectId(string)` constructor: accepts exactly the
24-character hexadecimal strings, yielding the identity value, and
raises `InvalidId` (here: `none`) otherwise. -/
def parseObjectId (s : String) : Option Nat :=
  if s.data.length = 24 && s.data.all isHexDigitChar then
    some (s.data.foldl (fun acc c => 16 * acc + hexDigitVal c) 0)
  else none

/-- Request model `OrderItemCreate` (src/app/models.py): a product id
string and a quantity. -/
structure OrderItemCreate where
  productId : String
  qty : Int
deriving Repr, DecidableEq

/-- Request model `OrderCreate` (src/app/models.py). -/
structure OrderCreate where
  userId : String
  items : List OrderItemCreate
deriving Repr, DecidableEq

/-- The per-item loop of `create_order` (orders.py lines 37-46):
checks each quantity, converts each product id string to an ObjectId,
and raises on the first failure. -/
def convertItems : List OrderItemCreate → Except ApiError (List OrderItem)
  | [] => .ok []
  | it :: rest =>
    if it.qty ≤ 0 then
      .error (.validation "Item quantity must be greater than 0")
    else
      match parseObjectId it.productId with
      | none => .error (.validation ("Invalid product ID: " ++ it.productId))
      | some pid =>
        match convertItems rest with
        | .error e => .error e
        | .ok tl => .ok (⟨pid, it.qty⟩ :: tl)

/-- `count_documents({"_id": {"$in": pids}})` on the products
collection: the number of product documents whose id occurs in
`pids`. -/
def countExisting (products : List Product) (pids : List Nat) : Nat :=
  (products.filter (fun p => pids.contains p.id)).length

/-- The `create_order` handler (orders.py lines 12-59). `newId` is the
ObjectId assigned by `insert_one`. On success returns the new store and
the id of the inserted order; on failure the store is unchanged and an
error is returned. -/
def create_order (s : Store) (newId : Nat) (order : OrderCreate) :
    Except ApiError (Store × Nat) :=
  if order.items = [] then
    .error (.validation "Order must contain at least one item")
  else if pyStrip order.userId = "" then
    .error (.validation "User ID cannot be empty")
  else
    match convertItems order.items with
    | .error e => .error e
    | .ok items =>
      let pids := items.map (fun it => it.productId)
      if countExisting s.products pids ≠ pids.length then
        .error (.referential "One or more products do not exist")
      else
        .ok ({ s with orders := s.orders ++ [⟨newId, order.userId, items⟩] }, newId)

/-- The `$lookup` stage: all product documents whose `_id` equals the
given foreign key, in collection order. -/
def lookupProducts (ps : List Product) (pid : Nat) : List Product :=
  ps.filter (fun p => p.id = pid)

/-- One row of the pipeline after `$match`, `$unwind items`,
`$lookup` and `$unwind productInfo`: the parent order's id, the item's
quantity, and the joined product document. -/
structure Row where
  orderId : Nat
  qty : Int
  product : Product
deriving Repr, DecidableEq

/-- The rows produced by one order under `$unwind items`, `$lookup`,
`$unwind productInfo`: one row per item per matching product document.
An item whose product no longer exists produces no row (inner-join
semantics of `$unwind` on an empty `$lookup` array). -/
def rowsOf (ps : List Product) (o : StoredOrder) : List Row :=
  o.items.flatMap (fun it =>
    (lookupProducts ps it.productId).map (fun p => ⟨o.id, it.qty, p⟩))

/-- Stages 1-4 of the pipeline (orders.py lines 88-98): match the
user's orders, unwind their items, join each against the products
collection and unwind the result. -/
def unwindJoin (ps : List Product) (os : List StoredOrder) (uid : String) : List Row :=
  (os.filter (fun o => o.userId = uid)).flatMap (rowsOf ps)

/-- `productDetails` of the response model. -/
structure ProductDetails where
  id : Nat
  name : String
deriving Repr, DecidableEq

/-- `OrderItemDetails` of the response model. -/
structure OrderItemDetails where
  productDetails : ProductDetails
  qty : Int
deriving Repr, DecidableEq

/-- `OrderListDetails` of the response model: one grouped order. -/
structure OrderListDetails where
  id : Nat
  items : List OrderItemDetails
  total : ℚ
deriving Repr, DecidableEq

/-- The grouped document built by `$group` for one order id: `total`
accumulated by `$sum` of `qty * price` and `items` accumulated by
`$push`, both in row order. -/
def groupEntry (rows : List Row) (oid : Nat) : OrderListDetails :=
  { id := oid
    items := (rows.filter (fun r => r.orderId = oid)).map
      (fun r => ⟨⟨r.product.id, r.product.name⟩, r.qty⟩)
    total := ((rows.filter (fun r => r.orderId = oid)).map
      (fun r => (r.qty : ℚ) * r.product.price)).sum }

/-- The `$group` stage (orders.py lines 100-110): one output document
per distinct order id among the rows. -/
def groupRows (rows : List Row) : List OrderListDetails :=
  ((rows.map (fun r => r.orderId)).dedup).map (groupEntry rows)

/-- Ordering of grouped orders used by the `$sort` stage: ascending by
order id. -/
def ordLe (a b : OrderListDetails) : Prop := a.id ≤ b.id

instance : DecidableRel ordLe := fun a b => inferInstanceAs (Decidable (a.id ≤ b.id))

instance : IsTotal OrderListDetails ordLe := ⟨fun a b => Nat.le_total a.id b.id⟩

instance : IsTrans OrderListDetails ordLe := ⟨fun _ _ _ h h2 => Nat.le_trans h h2⟩

/-- The `$sort {_id: 1}` stage. -/
def sortById (l : List OrderListDetails) : List OrderListDetails :=
  List.insertionSort ordLe l

/-- The full grouped-and-sorted order list of a (already stripped)
user id, before pagination: stages 1-5 of the pipeline. -/
def listOrders (s : Store) (uid : String) : List OrderListDetails :=
  sortById (groupRows (unwindJoin s.products s.orders uid))

/-- The `page` object of the response. -/
structure Pagination where
  next : Option String
  limit : Nat
  offset : Nat
  previous : Option String
deriving Repr, DecidableEq

/-- The `OrderListResponse` model. -/
structure OrderListResponse where
  data : List OrderListDetails
  page : Pagination
deriving Repr, DecidableEq

/-- The `get_user_orders` handler (orders.py lines 62-136): strips the
user id, rejects an empty result, runs the aggregation pipeline
(match, unwind, lookup, unwind, group, sort by id, skip `offset`,
limit `limit`) and attaches the pagination cursors computed on lines
125-126. -/
def get_user_orders (s : Store) (user_id : String) (limit offset : Nat) :
    Except ApiError OrderListResponse :=
  let uid := pyStrip user_id
  if uid = "" then
    .error (.validation "User ID cannot be empty")
  else
    let sorted := listOrders s uid
    let page := (sorted.drop offset).take limit
    .ok
      { data := page
        page :=
          { next := if page.length = limit then some (toString (offset + limit)) else none
            limit := limit
            offset := offset
            previous := if 0 < offset then some (toString ((offset : Int) - (limit : Int))) else none } }

/-- The items of an order whose referenced product still exists in the
store (the "surviving" items). -/
def survivors (ps : List Product) (o : StoredOrder) : List OrderItem :=
  o.items.filter (fun it => ps.any (fun p => p.id = it.productId))

/-- First product with the given id, if any. -/
def findProduct (ps : List Product) (pid : Nat) : Option Product :=
  ps.find? (fun p => p.id = pid)

/-- The product stored under `pid` (the default is never reached when
the id resolves; its id component is `pid` in either case). -/
def pget (ps : List Product) (pid : Nat) : Product :=
  (findProduct ps pid).getD ⟨pid, "", 0⟩

/-- Concatenation of successive pages: starting at `offset`, request
pages of size `limit` and keep following the `next` cursor as long as a
full page comes back.  `fuel` bounds the recursion. -/
def collectOrders (s : Store) (uid : String) (limit : Nat) :
    Nat → Nat → List OrderListDetails
  | 0, _ => []
  | fuel + 1, offset =>
    match get_user_orders s uid limit offset with
    | .error _ => []
    | .ok resp =>
      if resp.data.length = limit then
        resp.data ++ collectOrders s uid limit fuel (offset + limit)
      else
        resp.data

/-- Scenario store of the spec: user u1 has one order with a single
item of quantity 2 referencing a product priced 9.99. -/
def scenProduct : Product := ⟨1, "widget", (999:ℚ)/100⟩

/-- Scenario database state for the price-at-read total scenario. -/
def scenStore : Store := ⟨[scenProduct], [⟨10, "u1", [⟨1, 2⟩]⟩]⟩

/-! ### Helper lemmas: stripping -/

lemma stripChars_eq_rdropWhile (l : List Char) :
    stripChars l = List.rdropWhile Char.isWhitespace (l.dropWhile Char.isWhitespace) := rfl

lemma dropWhile_stripChars (l : List Char) :
    (stripChars l).dropWhile Char.isWhitespace = stripChars l := by
  rw [stripChars_eq_rdropWhile]
  set y := l.dropWhile Char.isWhitespace with hy
  have hyy : y.dropWhile Char.isWhitespace = y := List.dropWhile_idempotent _ _
  rw [List.dropWhile_eq_self_iff]
  intro hl
  have hpre := List.rdropWhile_prefix (p := Char.isWhitespace) (l := y)
  have hlen : 0 < y.length := lt_of_lt_of_le hl (List.IsPrefix.length_le hpre)
  have hget : (List.rdropWhile Char.isWhitespace y).get ⟨0, hl⟩ = y.get ⟨0, hlen⟩ := by
    have h0 := List.IsPrefix.getElem hpre (n := 0) hl
    simpa using h0
  rw [hget]
  exact List.dropWhile_eq_self_iff.mp hyy hlen

lemma stripChars_idem (l : List Char) : stripChars (stripChars l) = stripChars l := by
  rw [stripChars_eq_rdropWhile (stripChars l), dropWhile_stripChars,
    stripChars_eq_rdropWhile, List.rdropWhile_idempotent]

lemma pyStrip_idem (s : String) : pyStrip (pyStrip s) = pyStrip s := by
  unfold pyStrip
  rw [show (String.mk (stripChars s.data)).data = stripChars s.data from rfl, stripChars_idem]

/-! ### Helper lemmas: product lookup -/

lemma findProduct_eq_some {ps : List Product} {pid : Nat} {p : Product}
    (h : findProduct ps pid = some p) : p ∈ ps ∧ p.id = pid := by
  refine ⟨List.mem_of_find?_eq_some h, ?_⟩
  have h2 := List.find?_some h
  simpa using h2

lemma pget_id (ps : List Product) (pid : Nat) : (pget ps pid).id = pid := by
  unfold pget
  rcases h : findProduct ps pid with _ | p
  · rfl
  · simpa using (findProduct_eq_some h).2

lemma lookupProducts_eq_toList {ps : List Product}
    (hP : (ps.map (fun p => p.id)).Nodup) (pid : Nat) :
    lookupProducts ps pid = (findProduct ps pid).toList := by
  induction ps with
  | nil => rfl
  | cons p tl ih =>
    simp only [List.map_cons, List.nodup_cons] at hP
    unfold lookupProducts findProduct at ih ⊢
    rw [List.filter_cons, List.find?_cons]
    by_cases hp : p.id = pid
    · have htl : List.filter (fun q => decide (q.id = pid)) tl = [] := by
        rw [List.filter_eq_nil_iff]
        intro q hq hqd
        rw [decide_eq_true_eq] at hqd
        have hmem : q.id ∈ tl.map (fun x => x.id) := List.mem_map_of_mem _ hq
        rw [hqd, ← hp] at hmem
        exact hP.1 hmem
      simp [hp, htl]
    · simpa [hp] using ih hP.2

/-! ### Helper lemmas: rows of the join -/

lemma orderId_of_mem_rowsOf {ps : List Product} {o : StoredOrder} {r : Row}
    (h : r ∈ rowsOf ps o) : r.orderId = o.id := by
  simp only [rowsOf, List.mem_flatMap, List.mem_map] at h
  obtain ⟨it, _, p, _, rfl⟩ := h
  rfl

lemma filter_rowsOf_self (ps : List Product) (o : StoredOrder) :
    (rowsOf ps o).filter (fun r => r.orderId = o.id) = rowsOf ps o :=
  List.filter_eq_self.mpr (fun r hr => by simp [orderId_of_mem_rowsOf hr])

lemma filter_rowsOf_ne {ps : List Product} {o : StoredOrder} {oid : Nat}
    (h : ¬ o.id = oid) :
    (rowsOf ps o).filter (fun r => r.orderId = oid) = [] :=
  List.filter_eq_nil_iff.mpr (fun r hr => by simp [orderId_of_mem_rowsOf hr, h])

lemma filter_flatMap_rowsOf {ps : List Product} {L : List StoredOrder} {o : StoredOrder}
    (hN : (L.map (fun x => x.id)).Nodup) (ho : o ∈ L) :
    (L.flatMap (rowsOf ps)).filter (fun r => r.orderId = o.id) = rowsOf ps o := by
  induction L with
  | nil => cases ho
  | cons a tl ih =>
    simp only [List.map_cons, List.nodup_cons] at hN
    rw [List.flatMap_cons, List.filter_append]
    rcases List.mem_cons.mp ho with rfl | hmem
    · rw [filter_rowsOf_self]
      have htl : (tl.flatMap (rowsOf ps)).filter (fun r => r.orderId = o.id) = [] := by
        rw [List.filter_eq_nil_iff]
        intro r hr hrd
        rw [decide_eq_true_eq] at hrd
        obtain ⟨o2, ho2, hro2⟩ := List.mem_flatMap.mp hr
        have hid : o2.id = o.id := by rw [← orderId_of_mem_rowsOf hro2, hrd]
        have hmem2 : o2.id ∈ tl.map (fun x => x.id) := List.mem_map_of_mem _ ho2
        rw [hid] at hmem2
        exact hN.1 hmem2
      rw [htl, List.append_nil]
    · have ha : ¬ a.id = o.id := by
        intro h
        have hmem2 : o.id ∈ tl.map (fun x => x.id) := List.mem_map_of_mem _ hmem
        rw [← h] at hmem2
        exact hN.1 hmem2
      rw [filter_rowsOf_ne ha, List.nil_append]
      exact ih hN.2 hmem

lemma flatMap_lookup_eq {ps : List Product} (hP : (ps.map (fun p => p.id)).Nodup)
    (oid : Nat) (its : List OrderItem) :
    its.flatMap (fun it => (lookupProducts ps it.productId).map
        (fun p => (⟨oid, it.qty, p⟩ : Row)))
      = (its.filter (fun it => ps.any (fun p => p.id = it.productId))).map
        (fun it => ⟨oid, it.qty, pget ps it.productId⟩) := by
  induction its with
  | nil => rfl
  | cons it tl ih =>
    rw [List.flatMap_cons, List.filter_cons, lookupProducts_eq_toList hP]
    rcases hf : findProduct ps it.productId with _ | p
    · have hany : ps.any (fun p => p.id = it.productId) = false := by
        rw [List.any_eq_false]
        intro p hp hpd
        rw [decide_eq_true_eq] at hpd
        have : findProduct ps it.productId ≠ none := by
          unfold findProduct
          rw [Ne, List.find?_eq_none]
          push_neg
          exact ⟨p, hp, by simp [hpd]⟩
        exact this hf
      simp [hany, ih]
    · have hany : ps.any (fun p => p.id = it.productId) = true := by
        rw [List.any_eq_true]
        exact ⟨p, (findProduct_eq_some hf).1, by simp [(findProduct_eq_some hf).2]⟩
      have hpget : pget ps it.productId = p := by unfold pget; rw [hf]; rfl
      simp [hany, hpget, ih]

lemma rowsOf_eq_map_survivors {ps : List Product}
    (hP : (ps.map (fun p => p.id)).Nodup) (o : StoredOrder) :
    rowsOf ps o
      = (survivors ps o).map (fun it => ⟨o.id, it.qty, pget ps it.productId⟩) :=
  flatMap_lookup_eq hP o.id o.items

/-! ### Helper lemmas: grouping and sorting -/

lemma groupEntry_id (rows : List Row) (oid : Nat) : (groupEntry rows oid).id = oid := rfl

lemma mem_groupRows_iff {rows : List Row} {g : OrderListDetails} :
    g ∈ groupRows rows
      ↔ g.id ∈ (rows.map (fun r => r.orderId)).dedup ∧ g = groupEntry rows g.id := by
  unfold groupRows
  rw [List.mem_map]
  constructor
  · rintro ⟨oid, hm, rfl⟩
    exact ⟨hm, rfl⟩
  · rintro ⟨hm, hg⟩
    exact ⟨g.id, hm, hg.symm⟩

lemma groupRows_map_id (rows : List Row) :
    (groupRows rows).map (fun g => g.id) = (rows.map (fun r => r.orderId)).dedup := by
  unfold groupRows
  rw [List.map_map]
  simp [Function.comp_def, groupEntry]

lemma nodup_groupRows_ids (rows : List Row) :
    ((groupRows rows).map (fun g => g.id)).Nodup := by
  rw [groupRows_map_id]
  exact List.nodup_dedup _

lemma listOrders_perm (s : Store) (uid : String) :
    (listOrders s uid).Perm (groupRows (unwindJoin s.products s.orders uid)) :=
  List.perm_insertionSort _ _

lemma listOrders_sorted (s : Store) (uid : String) :
    (listOrders s uid).Pairwise ordLe :=
  List.sorted_insertionSort _ _

lemma mem_listOrders {s : Store} {uid : String} {g : OrderListDetails} :
    g ∈ listOrders s uid ↔ g ∈ groupRows (unwindJoin s.products s.orders uid) :=
  (listOrders_perm s uid).mem_iff

/-! ### Helper lemmas: the handler -/

lemma get_user_orders_ok {s : Store} {user_id : String} {limit offset : Nat}
    {resp : OrderListResponse}
    (h : get_user_orders s user_id limit offset = .ok resp) :
    pyStrip user_id ≠ "" ∧
    resp = ⟨((listOrders s (pyStrip user_id)).drop offset).take limit,
      ⟨if (((listOrders s (pyStrip user_id)).drop offset).take limit).length = limit
          then some (toString (offset + limit)) else none,
        limit, offset,
        if 0 < offset then some (toString ((offset : Int) - (limit : Int))) else none⟩⟩ := by
  by_cases hu : pyStrip user_id = ""
  · rw [get_user_orders] at h
    simp [hu] at h
  · rw [get_user_orders] at h
    simp only [hu, if_false, ite_false, Except.ok.injEq] at h
    exact ⟨hu, h.symm⟩

lemma data_sublist {s : Store} {uid : String} {limit offset : Nat}
    {resp : OrderListResponse}
    (h : get_user_orders s uid limit offset = .ok resp) :
    resp.data.Sublist (listOrders s (pyStrip uid)) := by
  obtain ⟨hu, rfl⟩ := get_user_orders_ok h
  exact (List.take_sublist _ _).trans (List.drop_sublist _ _)

lemma filter_unwindJoin_eq_rowsOf {s : Store} {uid : String} {o : StoredOrder}
    (hO : (s.orders.map (fun x => x.id)).Nodup)
    (ho : o ∈ s.orders) (hu : o.userId = uid) :
    (unwindJoin s.products s.orders uid).filter (fun r => r.orderId = o.id)
      = rowsOf s.products o := by
  unfold unwindJoin
  apply filter_flatMap_rowsOf
  · exact List.Nodup.sublist (List.Sublist.map _ (List.filter_sublist _)) hO
  · rw [List.mem_filter]
    exact ⟨ho, by simp [hu]⟩

lemma groupEntry_of_order {s : Store} {uid : String} {o : StoredOrder}
    (hP : (s.products.map (fun p => p.id)).Nodup)
    (hO : (s.orders.map (fun x => x.id)).Nodup)
    (ho : o ∈ s.orders) (hu : o.userId = uid) :
    groupEntry (unwindJoin s.products s.orders uid) o.id =
      ⟨o.id,
        (survivors s.products o).map
          (fun it => ⟨⟨it.productId, (pget s.products it.productId).name⟩, it.qty⟩),
        ((survivors s.products o).map
          (fun it => (it.qty : ℚ) * (pget s.products it.productId).price)).sum⟩ := by
  unfold groupEntry
  rw [filter_unwindJoin_eq_rowsOf hO ho hu, rowsOf_eq_map_survivors hP]
  simp [List.map_map, Function.comp_def, pget_id]

lemma orderId_mem_rows_iff {s : Store} {uid : String} {o : StoredOrder}
    (hO : (s.orders.map (fun x => x.id)).Nodup)
    (ho : o ∈ s.orders) (hu : o.userId = uid) :
    o.id ∈ ((unwindJoin s.products s.orders uid).map (fun r => r.orderId)).dedup
      ↔ rowsOf s.products o ≠ [] := by
  rw [List.mem_dedup, List.mem_map]
  constructor
  · rintro ⟨r, hr, hrid⟩ hnil
    have hrf : r ∈ (unwindJoin s.products s.orders uid).filter
        (fun r => r.orderId = o.id) := by
      rw [List.mem_filter]
      exact ⟨hr, by simp [hrid]⟩
    rw [filter_unwindJoin_eq_rowsOf hO ho hu, hnil] at hrf
    cases hrf
  · intro hnil
    obtain ⟨r, hr⟩ := List.exists_mem_of_ne_nil _ hnil
    refine ⟨r, ?_, orderId_of_mem_rowsOf hr⟩
    unfold unwindJoin
    rw [List.mem_flatMap]
    refine ⟨o, ?_, hr⟩
    rw [List.mem_filter]
    exact ⟨ho, by simp [hu]⟩

lemma exists_order_of_mem_groupRows {s : Store} {uid : String} {g : OrderListDetails}
    (hg : g ∈ groupRows (unwindJoin s.products s.orders uid)) :
    ∃ o, o ∈ s.orders ∧ o.userId = uid ∧ g.id = o.id := by
  obtain ⟨hm, _⟩ := mem_groupRows_iff.mp hg
  rw [List.mem_dedup, List.mem_map] at hm
  obtain ⟨r, hr, hrid⟩ := hm
  unfold unwindJoin at hr
  obtain ⟨o, ho, hro⟩ := List.mem_flatMap.mp hr
  rw [List.mem_filter] at ho
  refine ⟨o, ho.1, by simpa using ho.2, ?_⟩
  rw [← hrid, orderId_of_mem_rowsOf hro]

lemma get_user_orders_eq {s : Store} {user_id : String} (limit offset : Nat)
    (hu : pyStrip user_id ≠ "") :
    get_user_orders s user_id limit offset =
      .ok ⟨((listOrders s (pyStrip user_id)).drop offset).take limit,
        ⟨if (((listOrders s (pyStrip user_id)).drop offset).take limit).length = limit
            then some (toString (offset + limit)) else none,
          limit, offset,
          if 0 < offset then some (toString ((offset : Int) - (limit : Int))) else none⟩⟩ := by
  rw [get_user_orders]
  simp [hu]

lemma collectOrders_eq_drop {s : Store} {uid : String} {limit : Nat}
    (hl : 1 ≤ limit) (hu : pyStrip uid ≠ "") :
    ∀ fuel offset, (listOrders s (pyStrip uid)).length + 1 ≤ fuel + offset →
      collectOrders s uid limit fuel offset = (listOrders s (pyStrip uid)).drop offset := by
  intro fuel
  induction fuel with
  | zero =>
    intro offset hoff
    simp only [collectOrders]
    rw [List.drop_eq_nil_of_le (by omega)]
  | succ n ih =>
    intro offset hoff
    simp only [collectOrders]
    rw [get_user_orders_eq limit offset hu]
    set L := listOrders s (pyStrip uid) with hL
    by_cases hfull : ((L.drop offset).take limit).length = limit
    · simp only [hfull, if_true]
      have hrec : collectOrders s uid limit n (offset + limit) = L.drop (offset + limit) :=
        ih (offset + limit) (by omega)
      rw [hrec]
      have hdd : L.drop (offset + limit) = (L.drop offset).drop limit := by
        rw [List.drop_drop, Nat.add_comm]
      rw [hdd, List.take_append_drop]
    · simp only [hfull, if_false]
      have hlen : (L.drop offset).length ≤ limit := by
        rw [List.length_take] at hfull
        omega
      exact List.take_of_length_le hlen

/-! ### Helper lemmas: order creation -/

lemma convertItems_ok {its : List OrderItemCreate}
    (hq : ∀ it ∈ its, 0 < it.qty)
    (hw : ∀ it ∈ its, (parseObjectId it.productId).isSome) :
    convertItems its =
      .ok (its.map (fun it => ⟨(parseObjectId it.productId).getD 0, it.qty⟩)) := by
  induction its with
  | nil => rfl
  | cons it tl ih =>
    have h1 : ¬ it.qty ≤ 0 := by have := hq it (by simp); omega
    obtain ⟨pid, hpid⟩ := Option.isSome_iff_exists.mp (hw it (by simp))
    simp only [convertItems, if_neg h1, hpid,
      ih (fun x hx => hq x (by simp [hx])) (fun x hx => hw x (by simp [hx])),
      List.map_cons]
    simp [hpid]

lemma convertItems_error_of_nonpos {its : List OrderItemCreate}
    (h : ∃ it ∈ its, it.qty ≤ 0) :
    ∃ msg, convertItems its = .error (.validation msg) := by
  induction its with
  | nil =>
    obtain ⟨it, hit, _⟩ := h
    cases hit
  | cons a tl ih =>
    by_cases ha : a.qty ≤ 0
    · exact ⟨_, by simp only [convertItems]; rw [if_pos ha]⟩
    · obtain ⟨it, hit, hq⟩ := h
      rcases List.mem_cons.mp hit with rfl | hmem
      · exact absurd hq ha
      · obtain ⟨msg, hmsg⟩ := ih ⟨it, hmem, hq⟩
        rcases hp : parseObjectId a.productId with _ | pid
        · exact ⟨_, by simp only [convertItems]; rw [if_neg ha, hp]⟩
        · refine ⟨msg, ?_⟩
          simp only [convertItems]
          rw [if_neg ha, hp, hmsg]

lemma countExisting_eq_length {ps : List Product} {pids : List Nat}
    (hP : (ps.map (fun p => p.id)).Nodup) (hnd : pids.Nodup)
    (hex : ∀ pid ∈ pids, ∃ p ∈ ps, p.id = pid) :
    countExisting ps pids = pids.length := by
  unfold countExisting
  have hnd1 : ((ps.filter (fun p => pids.contains p.id)).map (fun p => p.id)).Nodup :=
    List.Nodup.sublist (List.Sublist.map _ (List.filter_sublist _)) hP
  have hsub1 : (ps.filter (fun p => pids.contains p.id)).map (fun p => p.id) ⊆ pids := by
    intro x hx
    obtain ⟨p, hp, rfl⟩ := List.mem_map.mp hx
    rw [List.mem_filter] at hp
    simpa using hp.2
  have hsub2 : pids ⊆ (ps.filter (fun p => pids.contains p.id)).map (fun p => p.id) := by
    intro pid hpid
    obtain ⟨p, hp, hpeq⟩ := hex pid hpid
    rw [← hpeq]
    apply List.mem_map_of_mem
    rw [List.mem_filter]
    exact ⟨hp, by simpa [hpeq] using hpid⟩
  have hperm := List.Subperm.antisymm (List.Nodup.subperm hnd1 hsub1)
    (List.Nodup.subperm hnd hsub2)
  have := hperm.length_eq
  rw [List.length_map] at this
  exact this

lemma create_order_eq {s : Store} {newId : Nat} {order : OrderCreate}
    (hne : order.items ≠ []) (hu : pyStrip order.userId ≠ "")
    (hq : ∀ it ∈ order.items, 0 < it.qty)
    (hw : ∀ it ∈ order.items, (parseObjectId it.productId).isSome) :
    create_order s newId order =
      (if countExisting s.products
            (order.items.map (fun it => (parseObjectId it.productId).getD 0))
          ≠ (order.items.map (fun it => (parseObjectId it.productId).getD 0)).length
        then .error (.referential "One or more products do not exist")
        else .ok ({ s with orders := s.orders ++
            [⟨newId, order.userId, order.items.map
              (fun it => ⟨(parseObjectId it.productId).getD 0, it.qty⟩)⟩] }, newId)) := by
  simp only [create_order, if_neg hne, if_neg hu, convertItems_ok hq hw]
  simp [List.map_map, Function.comp_def]

/-! ### Claim theorems -/

/-- C1: for an order of the listed user, the pipeline drops exactly the
items whose product was deleted: if every item's product is gone the
order's id occurs in no page of any `get_user_orders` call, and
otherwise (with a window that covers the whole result) the order is
returned with precisely the surviving items and with total computed
from the surviving items alone. -/
theorem c1_dangling_reference
    (s : Store) (uid : String) (o : StoredOrder)
    (ho : o ∈ s.orders) (hu : o.userId = pyStrip uid)
    (hP : (s.products.map (fun p => p.id)).Nodup)
    (hO : (s.orders.map (fun x => x.id)).Nodup)
    (limit offset : Nat) (resp : OrderListResponse)
    (hresp : get_user_orders s uid limit offset = .ok resp) :
    (survivors s.products o = [] → ∀ g ∈ resp.data, g.id ≠ o.id) ∧
    (survivors s.products o ≠ [] → offset = 0 →
        (listOrders s (pyStrip uid)).length ≤ limit →
      ∃ g ∈ resp.data, g.id = o.id ∧
        g.items = (survivors s.products o).map
          (fun it => ⟨⟨it.productId, (pget s.products it.productId).name⟩, it.qty⟩) ∧
        g.total = ((survivors s.products o).map
          (fun it => (it.qty : ℚ) * (pget s.products it.productId).price)).sum) := by
  constructor
  · intro hsurv g hg hgid
    have hgl : g ∈ listOrders s (pyStrip uid) := (data_sublist hresp).subset hg
    have hgr := mem_listOrders.mp hgl
    obtain ⟨hm, -⟩ := mem_groupRows_iff.mp hgr
    rw [hgid] at hm
    have hrows := (orderId_mem_rows_iff hO ho hu).mp hm
    rw [rowsOf_eq_map_survivors hP, hsurv] at hrows
    exact hrows rfl
  · intro hsurv hoff hlim
    have hmem : o.id ∈ ((unwindJoin s.products s.orders (pyStrip uid)).map
        (fun r => r.orderId)).dedup := by
      rw [orderId_mem_rows_iff hO ho hu, rowsOf_eq_map_survivors hP]
      intro hmap
      exact hsurv (List.map_eq_nil_iff.mp hmap)
    have hentry : groupEntry (unwindJoin s.products s.orders (pyStrip uid)) o.id
        ∈ groupRows (unwindJoin s.products s.orders (pyStrip uid)) :=
      List.mem_map_of_mem _ hmem
    have hgl : groupEntry (unwindJoin s.products s.orders (pyStrip uid)) o.id
        ∈ listOrders s (pyStrip uid) := mem_listOrders.mpr hentry
    have hspec := groupEntry_of_order hP hO ho hu
    obtain ⟨hun, rfl⟩ := get_user_orders_ok hresp
    subst hoff
    refine ⟨groupEntry (unwindJoin s.products s.orders (pyStrip uid)) o.id, ?_, ?_, ?_, ?_⟩
    · show _ ∈ ((listOrders s (pyStrip uid)).drop 0).take limit
      rw [List.drop_zero, List.take_of_length_le hlim]
      exact hgl
    · rw [hspec]
    · rw [hspec]
    · rw [hspec]

/-- C2: every returned order's total is the sum, in item order, of
qty times the product price as stored at read time, over the order's
surviving items; and in the concrete scenario (one order, one item of
qty 2, product priced 9.99) the returned total is 19.98. -/
theorem c2_total_price_at_read :
    (∀ (s : Store) (uid : String) (limit offset : Nat) (resp : OrderListResponse),
      (s.products.map (fun p => p.id)).Nodup →
      (s.orders.map (fun x => x.id)).Nodup →
      get_user_orders s uid limit offset = .ok resp →
      ∀ g ∈ resp.data, ∃ o, o ∈ s.orders ∧ o.userId = pyStrip uid ∧ g.id = o.id ∧
        g.total = ((survivors s.products o).map
          (fun it => (it.qty : ℚ) * (pget s.products it.productId).price)).sum) ∧
    (∃ resp2, get_user_orders scenStore "u1" 10 0 = .ok resp2 ∧
      resp2.data.map (fun g => g.total) = [(999 : ℚ)/50]) := by
  constructor
  · intro s uid limit offset resp hP hO hresp g hg
    have hgl : g ∈ listOrders s (pyStrip uid) := (data_sublist hresp).subset hg
    have hgr := mem_listOrders.mp hgl
    obtain ⟨o, ho, hu, hgid⟩ := exists_order_of_mem_groupRows hgr
    refine ⟨o, ho, hu, hgid, ?_⟩
    obtain ⟨-, hge⟩ := mem_groupRows_iff.mp hgr
    have ht : g.total
        = (groupEntry (unwindJoin s.products s.orders (pyStrip uid)) g.id).total := by
      rw [← hge]
    rw [ht, hgid, groupEntry_of_order hP hO ho hu]
  · refine ⟨⟨[⟨10, [⟨⟨1, "widget"⟩, 2⟩], (999 : ℚ)/50⟩], ⟨none, 10, 0, none⟩⟩, ?_, by simp⟩
    simp [get_user_orders, listOrders, sortById, groupRows, groupEntry, unwindJoin,
      rowsOf, lookupProducts, pyStrip, stripChars, scenStore, scenProduct,
      List.insertionSort, List.orderedInsert, List.dedup, List.flatMap]
    norm_num

/-- Store used to refute C3: a single product with id 1. -/
def c3Store : Store := ⟨[⟨1, "p", 5⟩], []⟩

/-- Request used to refute C3: two items, both referencing the same
existing product with a valid ObjectId string and positive quantity. -/
def c3Req : OrderCreate :=
  ⟨"u2", [⟨"000000000000000000000001", 1⟩, ⟨"000000000000000000000001", 1⟩]⟩

/-- C3 counterexample: a request in which every item has positive
quantity and a well-formed productId resolving to an existing product,
and whose userId is non-empty after trimming, nevertheless fails with
the referential error, because the same productId appears in two items:
`count_documents` counts the one distinct matching product while the
code compares against the two-element productId list. -/
theorem c3_counterexample :
    (∀ it ∈ c3Req.items, 0 < it.qty ∧
      (∃ p ∈ c3Store.products, parseObjectId it.productId = some p.id)) ∧
    pyStrip c3Req.userId ≠ "" ∧
    create_order c3Store 99 c3Req
      = .error (.referential "One or more products do not exist") :=
  ⟨by decide, by decide, by rfl⟩

/-- C3 as amended: under well-formed inputs the operation fails with
the referential error if and only if the number of items (productIds
counted with multiplicity, not distinctly) differs from the count of
product documents found; consequently a request whose productIds are
pairwise distinct and all existing succeeds, but a duplicated productId
makes the order fail even though every referenced product exists. -/
theorem c3_referential_check
    (s : Store) (newId : Nat) (order : OrderCreate)
    (hq : ∀ it ∈ order.items, 0 < it.qty)
    (hw : ∀ it ∈ order.items, (parseObjectId it.productId).isSome)
    (hu : pyStrip order.userId ≠ "") (hne : order.items ≠ []) :
    ((∃ msg, create_order s newId order = .error (.referential msg)) ↔
      countExisting s.products
          (order.items.map (fun it => (parseObjectId it.productId).getD 0))
        ≠ (order.items.map (fun it => (parseObjectId it.productId).getD 0)).length) ∧
    (((order.items.map (fun it => (parseObjectId it.productId).getD 0)).Nodup ∧
        (s.products.map (fun p => p.id)).Nodup ∧
        (∀ pid ∈ order.items.map (fun it => (parseObjectId it.productId).getD 0),
          ∃ p ∈ s.products, p.id = pid)) →
      ∃ st, create_order s newId order = .ok (st, newId)) := by
  rw [create_order_eq hne hu hq hw]
  constructor
  · by_cases hc : countExisting s.products
        (order.items.map (fun it => (parseObjectId it.productId).getD 0))
      ≠ (order.items.map (fun it => (parseObjectId it.productId).getD 0)).length
    · rw [if_pos hc]
      exact ⟨fun _ => hc, fun _ => ⟨_, rfl⟩⟩
    · rw [if_neg hc]
      refine ⟨fun h => absurd ?_ hc, fun h => absurd h hc⟩
      obtain ⟨msg, hmsg⟩ := h
      cases hmsg
  · rintro ⟨hnd, hP, hex⟩
    have hcount := countExisting_eq_length hP hnd hex
    rw [if_neg (by omega)]
    exact ⟨_, rfl⟩

/-- C4: the data list of a successful call is exactly the
offset-limit slice of the full grouped order list sorted ascending by
order id, and the returned page is itself in ascending-id order. -/
theorem c4_pagination_slice
    (s : Store) (uid : String) (limit offset : Nat) (resp : OrderListResponse)
    (hresp : get_user_orders s uid limit offset = .ok resp) :
    ∃ L : List OrderListDetails,
      L.Perm (groupRows (unwindJoin s.products s.orders (pyStrip uid))) ∧
      L.Pairwise ordLe ∧
      resp.data = (L.drop offset).take limit ∧
      resp.data.Pairwise ordLe := by
  obtain ⟨hu, rfl⟩ := get_user_orders_ok hresp
  refine ⟨listOrders s (pyStrip uid), listOrders_perm s (pyStrip uid),
    listOrders_sorted s (pyStrip uid), rfl, ?_⟩
  exact List.Pairwise.sublist
    ((List.take_sublist _ _).trans (List.drop_sublist _ _))
    (listOrders_sorted s (pyStrip uid))

/-- C5: the next cursor is present, with value the decimal string of
offset + limit, exactly when the returned page has `limit` entries
(whether or not further orders exist), and is absent otherwise. -/
theorem c5_next_cursor
    (s : Store) (uid : String) (limit offset : Nat) (resp : OrderListResponse)
    (hresp : get_user_orders s uid limit offset = .ok resp) :
    (resp.page.next = some (toString (offset + limit)) ↔ resp.data.length = limit) ∧
    (resp.data.length ≠ limit → resp.page.next = none) := by
  obtain ⟨hu, rfl⟩ := get_user_orders_ok hresp
  by_cases hlen : (((listOrders s (pyStrip uid)).drop offset).take limit).length = limit
  · simp [hlen]
  · simp [hlen]

/-- C6: the previous cursor is present, with value the decimal string
of offset - limit (negative values preserved), exactly when offset is
positive, and is absent when offset is zero. -/
theorem c6_previous_cursor
    (s : Store) (uid : String) (limit offset : Nat) (resp : OrderListResponse)
    (hresp : get_user_orders s uid limit offset = .ok resp) :
    (resp.page.previous = some (toString ((offset : Int) - (limit : Int))) ↔ 0 < offset) ∧
    (offset = 0 → resp.page.previous = none) := by
  obtain ⟨hu, rfl⟩ := get_user_orders_ok hresp
  by_cases hoff : 0 < offset
  · simp [hoff]
    omega
  · simp [hoff]

/-- C7: with a fixed limit of at least 1 and an unchanged store,
concatenating the pages at offsets 0, limit, 2*limit, ... until a page
returns fewer than limit orders yields exactly the full sorted list of
the user's surviving grouped orders: the whole grouped set, without
duplicates, ascending by id. -/
theorem c7_pagination_completeness
    (s : Store) (uid : String) (limit : Nat) (hl : 1 ≤ limit)
    (hu : pyStrip uid ≠ "") (fuel : Nat)
    (hfuel : (listOrders s (pyStrip uid)).length + 1 ≤ fuel) :
    collectOrders s uid limit fuel 0 = listOrders s (pyStrip uid) ∧
    (listOrders s (pyStrip uid)).Perm
      (groupRows (unwindJoin s.products s.orders (pyStrip uid))) ∧
    (listOrders s (pyStrip uid)).Pairwise ordLe ∧
    ((listOrders s (pyStrip uid)).map (fun g => g.id)).Nodup := by
  refine ⟨?_, listOrders_perm s (pyStrip uid), listOrders_sorted s (pyStrip uid), ?_⟩
  · have h := collectOrders_eq_drop (s := s) hl hu fuel 0 (by omega)
    simpa using h
  · have hperm := (listOrders_perm s (pyStrip uid)).map (fun g => g.id)
    exact hperm.nodup_iff.mpr (nodup_groupRows_ids _)

/-- C8: `get_user_orders` is a pure function of the store and the
arguments, so two calls with identical userId, limit and offset against
the same store state return identical responses. -/
theorem c8_idempotent_reads
    (s1 s2 : Store) (uid1 uid2 : String) (l1 l2 o1 o2 : Nat)
    (hs : s1 = s2) (hu : uid1 = uid2) (hl : l1 = l2) (ho : o1 = o2) :
    get_user_orders s1 uid1 l1 o1 = get_user_orders s2 uid2 l2 o2 := by
  subst hs hu hl ho
  rfl

/-- C9: a creation request containing an item of non-positive quantity
fails with a validation error; since only the success branch of
`create_order` produces a new store, nothing is written. -/
theorem c9_nonpositive_qty
    (s : Store) (newId : Nat) (order : OrderCreate) (it : OrderItemCreate)
    (hit : it ∈ order.items) (hq : it.qty ≤ 0) :
    (∃ msg, create_order s newId order = .error (.validation msg)) ∧
    (∀ st oid, create_order s newId order ≠ .ok (st, oid)) := by
  have hne : order.items ≠ [] := by
    intro h
    rw [h] at hit
    cases hit
  have herr : ∃ msg, create_order s newId order = .error (.validation msg) := by
    by_cases hu : pyStrip order.userId = ""
    · refine ⟨"User ID cannot be empty", ?_⟩
      simp only [create_order, if_neg hne, if_pos hu]
    · obtain ⟨msg, hmsg⟩ := convertItems_error_of_nonpos ⟨it, hit, hq⟩
      refine ⟨msg, ?_⟩
      simp only [create_order, if_neg hne, if_neg hu, hmsg]
  refine ⟨herr, ?_⟩
  intro st oid hok
  obtain ⟨msg, hmsg⟩ := herr
  rw [hok] at hmsg
  cases hmsg

/-- C10: `create_order` stores the userId exactly as supplied while
`get_user_orders` matches against the trimmed user id, so an order
stored with leading or trailing whitespace in its userId is returned by
no listing call. -/
theorem c10_whitespace_userid_never_listed :
    (∀ (s : Store) (newId : Nat) (order : OrderCreate) (st : Store) (oid : Nat),
        create_order s newId order = .ok (st, oid) →
        ∃ its, st.orders = s.orders ++ [⟨newId, order.userId, its⟩]) ∧
    (∀ (s : Store) (o : StoredOrder) (uid : String) (limit offset : Nat)
        (resp : OrderListResponse),
        o ∈ s.orders → pyStrip o.userId ≠ o.userId →
        (s.orders.map (fun x => x.id)).Nodup →
        get_user_orders s uid limit offset = .ok resp →
        ∀ g ∈ resp.data, g.id ≠ o.id) := by
  constructor
  · intro s newId order st oid h
    simp only [create_order] at h
    split at h
    · cases h
    split at h
    · cases h
    split at h
    · cases h
    split at h
    · cases h
    · simp only [Except.ok.injEq, Prod.mk.injEq] at h
      rename_i tl heq hcnt
      exact ⟨tl, congrArg Store.orders h.1.symm⟩
  · intro s o uid limit offset resp ho hw hO hresp g hg hgid
    have hgl : g ∈ listOrders s (pyStrip uid) := (data_sublist hresp).subset hg
    have hgr := mem_listOrders.mp hgl
    obtain ⟨o2, ho2, hu2, hgid2⟩ := exists_order_of_mem_groupRows hgr
    have hoo : o2 = o := by
      apply List.inj_on_of_nodup_map hO ho2 ho
      rw [← hgid2, hgid]
    rw [hoo] at hu2
    apply hw
    rw [hu2, pyStrip_idem]

/-! ### Concrete inputs used by the witnesses -/

/-- Witness store: one product, one order with a surviving and a
dangling item, one order with only a dangling item. -/
def w1Store : Store :=
  ⟨[⟨1, "w", 3⟩], [⟨10, "u1", [⟨1, 2⟩, ⟨2, 1⟩]⟩, ⟨11, "u1", [⟨2, 1⟩]⟩]⟩

/-- The order of `w1Store` with one surviving item. -/
def w1o1 : StoredOrder := ⟨10, "u1", [⟨1, 2⟩, ⟨2, 1⟩]⟩

/-- The order of `w1Store` all of whose items are dangling. -/
def w1o2 : StoredOrder := ⟨11, "u1", [⟨2, 1⟩]⟩

/-- The single grouped order returned for `w1Store`. -/
def w1G : OrderListDetails := ⟨10, [⟨⟨1, "w"⟩, 2⟩], 2 * (3 : ℚ)⟩

/-- The response of `get_user_orders w1Store "u1" 10 0`. -/
def w1Resp : OrderListResponse := ⟨[w1G], ⟨none, 10, 0, none⟩⟩

/-- The response of `get_user_orders w1Store "u1" 1 0`: a full page. -/
def w5Resp : OrderListResponse := ⟨[w1G], ⟨some "1", 1, 0, none⟩⟩

/-- The response of `get_user_orders w1Store "u1" 10 5`. -/
def w6Resp : OrderListResponse := ⟨[], ⟨none, 10, 5, some "-5"⟩⟩

/-- Witness store for order creation: two products. -/
def c3wStore : Store := ⟨[⟨1, "p", 5⟩, ⟨2, "q", 7⟩], []⟩

/-- Creation request with two distinct, existing productIds. -/
def c3wReq : OrderCreate :=
  ⟨"u2", [⟨"000000000000000000000001", 1⟩, ⟨"000000000000000000000002", 2⟩]⟩

/-- Creation request with a zero quantity. -/
def w9Req : OrderCreate := ⟨"u3", [⟨"000000000000000000000001", 0⟩]⟩

/-- Witness store for C10: an order stored with whitespace around its
userId next to one stored with the trimmed userId. -/
def w10Store : Store :=
  ⟨[⟨1, "w", 3⟩], [⟨10, " u1 ", [⟨1, 2⟩]⟩, ⟨11, "u1", [⟨1, 2⟩]⟩]⟩

/-- The grouped order returned for `w10Store` and user id u1. -/
def w10G : OrderListDetails := ⟨11, [⟨⟨1, "w"⟩, 2⟩], 2 * (3 : ℚ)⟩

/-- The response of `get_user_orders w10Store "u1" 10 0`. -/
def w10Resp : OrderListResponse := ⟨[w10G], ⟨none, 10, 0, none⟩⟩

/-! ### Witnesses -/

/-- C1 witness at `w1Store`. -/
theorem c1_witness :
    survivors w1Store.products w1o2 = [] ∧
    (∀ g ∈ w1Resp.data, g.id ≠ w1o2.id) ∧
    survivors w1Store.products w1o1 ≠ [] ∧
    (∃ g ∈ w1Resp.data, g.id = w1o1.id ∧
      g.items = (survivors w1Store.products w1o1).map
        (fun it => ⟨⟨it.productId, (pget w1Store.products it.productId).name⟩, it.qty⟩) ∧
      g.total = ((survivors w1Store.products w1o1).map
        (fun it => (it.qty : ℚ) * (pget w1Store.products it.productId).price)).sum) :=
  ⟨by decide,
   (c1_dangling_reference w1Store "u1" w1o2 (by decide) (by decide) (by decide) (by decide)
      10 0 w1Resp (by simp [get_user_orders, listOrders, sortById, groupRows, groupEntry,
        unwindJoin, rowsOf, lookupProducts, pyStrip, stripChars, w1Store, w1Resp, w1G,
        List.insertionSort, List.orderedInsert, List.dedup, List.flatMap])).1 (by decide),
   by decide,
   (c1_dangling_reference w1Store "u1" w1o1 (by decide) (by decide) (by decide) (by decide)
      10 0 w1Resp (by simp [get_user_orders, listOrders, sortById, groupRows, groupEntry,
        unwindJoin, rowsOf, lookupProducts, pyStrip, stripChars, w1Store, w1Resp, w1G,
        List.insertionSort, List.orderedInsert, List.dedup, List.flatMap])).2
      (by decide) rfl (by decide)⟩

/-- C2 witness at `w1Store`. -/
theorem c2_witness :
    w1G ∈ w1Resp.data ∧
    (∃ o, o ∈ w1Store.orders ∧ o.userId = pyStrip "u1" ∧ w1G.id = o.id ∧
      w1G.total = ((survivors w1Store.products o).map
        (fun it => (it.qty : ℚ) * (pget w1Store.products it.productId).price)).sum) :=
  ⟨by simp [w1Resp],
   c2_total_price_at_read.1 w1Store "u1" 10 0 w1Resp (by decide) (by decide)
     (by simp [get_user_orders, listOrders, sortById, groupRows, groupEntry,
       unwindJoin, rowsOf, lookupProducts, pyStrip, stripChars, w1Store, w1Resp, w1G,
       List.insertionSort, List.orderedInsert, List.dedup, List.flatMap])
     w1G (by simp [w1Resp])⟩

/-- C3 witness: distinct existing productIds succeed. -/
theorem c3_witness :
    ∃ st, create_order c3wStore 99 c3wReq = .ok (st, 99) :=
  (c3_referential_check c3wStore 99 c3wReq (by decide) (by decide) (by decide)
    (by decide)).2 ⟨by decide, by decide, by decide⟩

/-- C4 witness at `w1Store`. -/
theorem c4_witness :
    ∃ L : List OrderListDetails,
      L.Perm (groupRows (unwindJoin w1Store.products w1Store.orders (pyStrip "u1"))) ∧
      L.Pairwise ordLe ∧
      w1Resp.data = (L.drop 0).take 10 ∧
      w1Resp.data.Pairwise ordLe :=
  c4_pagination_slice w1Store "u1" 10 0 w1Resp
    (by simp [get_user_orders, listOrders, sortById, groupRows, groupEntry,
      unwindJoin, rowsOf, lookupProducts, pyStrip, stripChars, w1Store, w1Resp, w1G,
      List.insertionSort, List.orderedInsert, List.dedup, List.flatMap])

/-- C5 witness: a full page of size one emits the next cursor even
though no further orders exist. -/
theorem c5_witness :
    (w5Resp.page.next = some (toString (0 + 1)) ↔ w5Resp.data.length = 1) ∧
    (w5Resp.data.length ≠ 1 → w5Resp.page.next = none) :=
  c5_next_cursor w1Store "u1" 1 0 w5Resp
    (by
      simp [get_user_orders, listOrders, sortById, groupRows, groupEntry,
        unwindJoin, rowsOf, lookupProducts, pyStrip, stripChars, w1Store, w5Resp, w1G,
        List.insertionSort, List.orderedInsert, List.dedup, List.flatMap]
      rfl)

/-- C6 witness: offset 5 with limit 10 yields previous cursor -5. -/
theorem c6_witness :
    (w6Resp.page.previous = some (toString (((5 : Nat) : Int) - ((10 : Nat) : Int)))
      ↔ 0 < 5) ∧
    ((5 : Nat) = 0 → w6Resp.page.previous = none) ∧
    toString (((5 : Nat) : Int) - ((10 : Nat) : Int)) = "-5" :=
  ⟨(c6_previous_cursor w1Store "u1" 10 5 w6Resp (by rfl)).1,
   (c6_previous_cursor w1Store "u1" 10 5 w6Resp (by rfl)).2,
   by decide⟩

/-- C7 witness at `w1Store` with limit 1. -/
theorem c7_witness :
    collectOrders w1Store "u1" 1 2 0 = listOrders w1Store (pyStrip "u1") ∧
    (listOrders w1Store (pyStrip "u1")).Perm
      (groupRows (unwindJoin w1Store.products w1Store.orders (pyStrip "u1"))) ∧
    (listOrders w1Store (pyStrip "u1")).Pairwise ordLe ∧
    ((listOrders w1Store (pyStrip "u1")).map (fun g => g.id)).Nodup :=
  c7_pagination_completeness w1Store "u1" 1 (by decide) (by decide) 2 (by decide)

/-- C8 witness. -/
theorem c8_witness :
    get_user_orders w1Store "u1" 1 0 = get_user_orders w1Store "u1" 1 0 :=
  c8_idempotent_reads w1Store w1Store "u1" "u1" 1 1 0 0 rfl rfl rfl rfl

/-- C9 witness: quantity zero. -/
theorem c9_witness :
    (∃ msg, create_order c3wStore 77 w9Req = .error (.validation msg)) ∧
    (∀ st oid, create_order c3wStore 77 w9Req ≠ .ok (st, oid)) :=
  c9_nonpositive_qty c3wStore 77 w9Req ⟨"000000000000000000000001", 0⟩ (by decide) (by decide)

/-- C10 witness: a successful creation stores the userId verbatim, and
an order with whitespace around its userId never appears in a listing. -/
theorem c10_witness :
    (∃ its, ({ c3wStore with orders := c3wStore.orders
        ++ [⟨99, "u2", [⟨1, 1⟩, ⟨2, 2⟩]⟩] } : Store).orders
      = c3wStore.orders ++ [⟨99, c3wReq.userId, its⟩]) ∧
    w10G.id ≠ (⟨10, " u1 ", [⟨1, 2⟩]⟩ : StoredOrder).id :=
  ⟨c10_whitespace_userid_never_listed.1 c3wStore 99 c3wReq
     ({ c3wStore with orders := c3wStore.orders ++ [⟨99, "u2", [⟨1, 1⟩, ⟨2, 2⟩]⟩] }) 99
     (by rfl),
   c10_whitespace_userid_never_listed.2 w10Store ⟨10, " u1 ", [⟨1, 2⟩]⟩ "u1" 10 0 w10Resp
     (by decide) (by decide) (by decide)
     (by simp [get_user_orders, listOrders, sortById, groupRows, groupEntry,
       unwindJoin, rowsOf, lookupProducts, pyStrip, stripChars, w10Store, w10Resp, w10G,
       List.insertionSort, List.orderedInsert, List.dedup, List.flatMap])
     w10G (by simp [w10Resp])⟩
